import Mathlib

/-!
Verification development for the index-media-server scan core.

The Rust sources under `src-tauri/src` are shallowly embedded as executable
Lean definitions: byte files become `List Nat`, strings become `String` /
`List Char`, the SQLite store becomes an explicit record of row lists, and
fallible or panicking code returns `Option` / `Except`.  Each section names
the Rust file and function it embeds.
-/

namespace IndexMediaServer

/-! ## Fingerprint — embedding of `src-tauri/src/utils/hash.rs`

A file on disk is modelled as its byte content, `List Nat`.  The external
`xxhash_rust::xxh3::xxh3_128` function is an opaque collaborator: it is taken
as an explicit parameter `h : List Nat → Nat`, and its `u128` return value is
modelled as `h bytes % 2 ^ 128`. -/

def SEGMENT_SIZE : Nat := 4 * 1024 * 1024

def HASH_THRESHOLD : Nat := 40 * 1024 * 1024

/-- Model of `file.seek(SeekFrom::Start(pos))` followed by
`read_exact` of `len` bytes: fails iff fewer than `len` bytes
are available from offset `pos`. -/
def read_exact (file : List Nat) (pos len : Nat) : Option (List Nat) :=
  if pos + len ≤ file.length then some ((file.drop pos).take len) else none

/-- Lowercase hexadecimal digit for `d < 16`. -/
def hexDigitChar (d : Nat) : Char :=
  Char.ofNat (if d < 10 then 48 + d else 87 + d)

/-- Model of Rust `format!("{:032x}", v)` for a `u128` value `v`:
32 lowercase hex nibbles, most significant first, zero-padded. -/
def formatHex32 (v : Nat) : String :=
  ⟨(List.range 32).map (fun i => hexDigitChar (v / 16 ^ (31 - i) % 16))⟩

/-- Embeds `hash_entire_file`: `read_to_end` reads the whole file, which is
then hashed and formatted. -/
def hash_entire_file (h : List Nat → Nat) (file : List Nat) : Option String :=
  some (formatHex32 (h file % 2 ^ 128))

/-- Embeds the `for i in 1..4` loop of `hash_file_segments`: read a 4-MiB
segment at `i * gap` for each listed `i`, concatenating in order. -/
def read_segments_loop (file : List Nat) (gap : Nat) : List Nat → Option (List Nat)
  | [] => some []
  | i :: is =>
    match read_exact file (i * gap) SEGMENT_SIZE, read_segments_loop file gap is with
    | some s, some rest => some (s ++ rest)
    | _, _ => none

/-- Embeds `hash_file_segments`: five 4-MiB segments at offsets `0`,
`gap`, `2*gap`, `3*gap`, `file_size - 4MiB` with
`gap = (file_size - 4MiB) / 4`, concatenated in read order and hashed. -/
def hash_file_segments (h : List Nat → Nat) (file : List Nat) : Option String :=
  let n := file.length
  let gap := (n - SEGMENT_SIZE) / 4
  match read_exact file 0 SEGMENT_SIZE with
  | none => none
  | some s0 =>
    match read_segments_loop file gap [1, 2, 3] with
    | none => none
    | some mids =>
      match read_exact file (n - SEGMENT_SIZE) SEGMENT_SIZE with
      | none => none
      | some s4 => some (formatHex32 (h (s0 ++ mids ++ s4) % 2 ^ 128))

/-- Embeds `calculate_fast_hash`: whole-file hash below 40 MiB, sparse
segment sampling at and above 40 MiB. -/
def calculate_fast_hash (h : List Nat → Nat) (file : List Nat) : Option String :=
  if file.length < HASH_THRESHOLD then hash_entire_file h file
  else hash_file_segments h file

/-- The 4-MiB window of `file` starting at byte offset `off`. -/
def segmentAt (file : List Nat) (off : Nat) : List Nat :=
  (file.drop off).take SEGMENT_SIZE

/-- The lowercase hexadecimal alphabet. -/
def lowerHexAlphabet : List Char := "0123456789abcdef".data
/-! ## Classifier — embedding of `src-tauri/src/utils/classifier.rs`

Paths and filenames are `List Char`.  Each `regex` pattern of the source is
embedded as a hand-written matcher that reproduces the crate's
leftmost-first semantics for that concrete pattern: matchers try a match at
the head of their input, and `scanTails` scans start positions left to
right.  Greedy pieces take the longest prefix (backtracking only where the
pattern makes it observable), lazy pieces the shortest. -/

def isWsChar (c : Char) : Bool :=
  c = ' ' || c = Char.ofNat 9 || c = Char.ofNat 10 || c = Char.ofNat 11 ||
    c = Char.ofNat 12 || c = Char.ofNat 13

def lowerChars (l : List Char) : List Char := l.map Char.toLower

def digitRun (l : List Char) : List Char := l.takeWhile (fun c => c.isDigit)

def dropWsChars (l : List Char) : List Char := l.dropWhile isWsChar

def wsRunLen (l : List Char) : Nat := (l.takeWhile isWsChar).length

def digitsToNat (l : List Char) : Nat := l.foldl (fun a c => a * 10 + (c.toNat - 48)) 0

/-- Model of `str::parse::<i32>` on an all-digit capture. -/
def parseI32 (l : List Char) : Option Int :=
  if l.isEmpty then none
  else if digitsToNat l ≤ 2147483647 then some (Int.ofNat (digitsToNat l)) else none

/-- Substring test: model of Rust `str::contains` with a string pattern. -/
def containsSub (needle : List Char) : List Char → Bool
  | [] => needle.isEmpty
  | c :: t => needle.isPrefixOf (c :: t) || containsSub needle t

/-- Try a matcher at every start position, left to right (leftmost match). -/
def scanTails (f : List Char → Option α) : List Char → Option α
  | [] => f []
  | c :: cs =>
    match f (c :: cs) with
    | some a => some a
    | none => scanTails f cs

/-- As `scanTails`, but also returns the text before the match; the matcher
returns its payload together with the text after the match. -/
def scanSplit (f : List Char → Option (α × List Char)) :
    List Char → Option (List Char × α × List Char)
  | [] => (f []).map (fun p => ([], p.1, p.2))
  | c :: cs =>
    match f (c :: cs) with
    | some p => some ([], p.1, p.2)
    | none => (scanSplit f cs).map (fun q => (c :: q.1, q.2.1, q.2.2))

/-- Case-insensitive ASCII keyword prefix match (keyword given lowercase);
returns the rest of the input on success. -/
def matchKeywordCI (kw : List Char) (l : List Char) : Option (List Char) :=
  if l.length < kw.length then none
  else if lowerChars (l.take kw.length) = kw then some (l.drop kw.length)
  else none

/-- Case-sensitive keyword prefix match. -/
def matchKeywordExact (kw : List Char) (l : List Char) : Option (List Char) :=
  if kw.isPrefixOf l then some (l.drop kw.length) else none

/-- Embeds `SEASON_FOLDER = (?i)^season\s+(\d+)$`; returns the digit capture. -/
def season_folder_captures (l : List Char) : Option (List Char) :=
  match matchKeywordCI ['s', 'e', 'a', 's', 'o', 'n'] l with
  | none => none
  | some rest =>
    let w := wsRunLen rest
    if w = 0 then none
    else
      let rest2 := rest.drop w
      let d := digitRun rest2
      if d.isEmpty then none
      else if rest2.drop d.length = [] then some d else none

def season_folder_matches (l : List Char) : Bool := (season_folder_captures l).isSome

/-- Embeds matching `TV_SXXEYY = (?i)S(\d{1,3})E(\d{1,4})(?:-E?(\d{1,4}))?` at
the head of `t`; returns ((season digits, episode digits, optional range
digits), text after the match). -/
def sxxeyy_at (t : List Char) :
    Option ((List Char × List Char × Option (List Char)) × List Char) :=
  match t with
  | [] => none
  | c :: rest =>
    if c.toLower = 's' then
      let sd := digitRun rest
      if sd.length = 0 || 3 < sd.length then none
      else
        match rest.drop sd.length with
        | [] => none
        | e :: rest2 =>
          if e.toLower = 'e' then
            let ed := digitRun rest2
            if ed.isEmpty then none
            else
              let ecap := ed.take 4
              let after := rest2.drop ecap.length
              match after with
              | '-' :: rest3 =>
                let body : Option (List Char × List Char) :=
                  match rest3 with
                  | [] => none
                  | x :: rest4 =>
                    if x.toLower = 'e' then
                      let dd := digitRun rest4
                      if dd.isEmpty then none
                      else some (dd.take 4, rest4.drop (dd.take 4).length)
                    else
                      let dd := digitRun rest3
                      if dd.isEmpty then none
                      else some (dd.take 4, rest3.drop (dd.take 4).length)
                match body with
                | some (dd, aft) => some ((sd, ecap, some dd), aft)
                | none => some ((sd, ecap, none), after)
              | _ => some ((sd, ecap, none), after)
          else none
    else none

/-- Shared tail of `TV_EYY` and `TV_EPYY`: `(\d{1,4})(?:-(\d{1,4}))?` at the
head of `rest`. -/
def episode_digits_tail (rest : List Char) :
    Option ((List Char × Option (List Char)) × List Char) :=
  let ed := digitRun rest
  if ed.isEmpty then none
  else
    let ecap := ed.take 4
    let after := rest.drop ecap.length
    match after with
    | '-' :: rest3 =>
      let dd := digitRun rest3
      if dd.isEmpty then some ((ecap, none), after)
      else some ((ecap, some (dd.take 4)), rest3.drop (dd.take 4).length)
    | _ => some ((ecap, none), after)

/-- Embeds matching `TV_EYY = (?i)E(\d{1,4})(?:-(\d{1,4}))?` at the head. -/
def eyy_at (t : List Char) : Option ((List Char × Option (List Char)) × List Char) :=
  match t with
  | [] => none
  | c :: rest => if c.toLower = 'e' then episode_digits_tail rest else none

/-- Embeds matching `TV_EPYY = (?i)Ep(\d{1,4})(?:-(\d{1,4}))?` at the head. -/
def epyy_at (t : List Char) : Option ((List Char × Option (List Char)) × List Char) :=
  match t with
  | c1 :: c2 :: rest =>
    if c1.toLower = 'e' && c2.toLower = 'p' then episode_digits_tail rest else none
  | _ => none

def isSepChar (c : Char) : Bool := c = '-' || c = '.'

/-- Embeds matching `DATE_ISO = (\d{4})[-.](\d{1,2})[-.](\d{1,2})` at the
head; returns ((year, month, day) digit captures, text after the match). -/
def date_iso_at (t : List Char) :
    Option ((List Char × List Char × List Char) × List Char) :=
  let y := (digitRun t).take 4
  if y.length = 4 then
    match t.drop 4 with
    | s1 :: r1 =>
      if isSepChar s1 then
        let mrun := digitRun r1
        if mrun.length = 1 || mrun.length = 2 then
          match r1.drop mrun.length with
          | s2 :: r2 =>
            if isSepChar s2 then
              let drun := digitRun r2
              if drun.isEmpty then none
              else
                let dcap := drun.take 2
                some ((y, mrun, dcap), r2.drop dcap.length)
            else none
          | [] => none
        else none
      else none
    | [] => none
  else none

/-- Embeds matching `DATE_DMY = (\d{1,2})[-.](\d{1,2})[-.](\d{4})` at the
head; returns ((day, month, year) digit captures, text after the match). -/
def date_dmy_at (t : List Char) :
    Option ((List Char × List Char × List Char) × List Char) :=
  let drun := digitRun t
  if drun.length = 1 || drun.length = 2 then
    match t.drop drun.length with
    | s1 :: r1 =>
      if isSepChar s1 then
        let mrun := digitRun r1
        if mrun.length = 1 || mrun.length = 2 then
          match r1.drop mrun.length with
          | s2 :: r2 =>
            if isSepChar s2 then
              let yrun := digitRun r2
              if 4 ≤ yrun.length then some ((drun, mrun, yrun.take 4), r2.drop 4)
              else none
            else none
          | [] => none
        else none
      else none
    | [] => none
  else none

/-- Embeds matching `VERSION_BRACES = \x7bedition-(.+?)\x7d` at the head;
the lazy capture is the shortest nonempty run of non-newline characters
followed by a closing brace. -/
def version_braces_at (t : List Char) : Option (List Char) :=
  match t with
  | [] => none
  | c :: rest =>
    if c = Char.ofNat 123 then
      match matchKeywordExact ['e', 'd', 'i', 't', 'i', 'o', 'n', '-'] rest with
      | none => none
      | some r2 =>
        let L := (r2.takeWhile (fun ch => ch ≠ Char.ofNat 10)).length
        (List.range L).findSome? (fun j =>
          let len := j + 1
          if (r2.drop len).head? = some (Char.ofNat 125) then some (r2.take len)
          else none)
    else none

/-- Embeds matching `VERSION_DASH = \s*-\s*([^-]+?)(?:\s*-\s*|$)` at the
head: the greedy second `\s*` backtracks from longest to shortest, the lazy
capture grows from length 1, and the tail accepts a following
whitespace-dash or the end of the haystack. -/
def version_dash_at (t : List Char) : Option (List Char) :=
  match dropWsChars t with
  | '-' :: t2 =>
    let w2 := wsRunLen t2
    (List.range (w2 + 1)).findSome? (fun k =>
      let base := t2.drop (w2 - k)
      let capMax := (base.takeWhile (fun c => c ≠ '-')).length
      (List.range capMax).findSome? (fun j =>
        let len := j + 1
        let u := base.drop len
        if u.isEmpty || (dropWsChars u).head? = some '-' then some (base.take len)
        else none))
  | _ => none

/-- Embeds matching `VERSION_BRACKETS = \s*-\s*\[([^\]]+)\]` at the head. -/
def version_brackets_at (t : List Char) : Option (List Char) :=
  match dropWsChars t with
  | '-' :: t2 =>
    match dropWsChars t2 with
    | '[' :: t4 =>
      let cap := t4.takeWhile (fun c => c ≠ ']')
      if cap.isEmpty then none
      else if (t4.drop cap.length).head? = some ']' then some cap else none
    | _ => none
  | _ => none

def partKeywords : List (List Char) :=
  [['c', 'd'], ['d', 'v', 'd'], ['p', 'a', 'r', 't'], ['p', 't'],
   ['d', 'i', 's', 'c'], ['d', 'i', 's', 'k']]

/-- Embeds matching
`PART_PATTERN = (?i)\s*-\s*\x7b?(cd|dvd|part|pt|disc|disk)(\d+)\x7d?` at the
head; returns the digit capture. -/
def part_pattern_at (t : List Char) : Option (List Char) :=
  match dropWsChars t with
  | '-' :: t2 =>
    let t3 := dropWsChars t2
    let t4 := if t3.head? = some (Char.ofNat 123) then t3.drop 1 else t3
    partKeywords.findSome? (fun kw =>
      match matchKeywordCI kw t4 with
      | none => none
      | some r =>
        let d := digitRun r
        if d.isEmpty then none else some d)
  | _ => none

def extIdKeywords : List (List Char) :=
  [['i', 'm', 'd', 'b'], ['t', 'm', 'd', 'b'], ['t', 'v', 'd', 'b']]

/-- Embeds matching
`EXTERNAL_ID = [\[\x7b](imdb|tmdb|tvdb)(?:id)?[:\- ]([^\]\x7d]+)[\]\x7d]` at
the head; returns ((source, value), text after the match). -/
def external_id_at (t : List Char) :
    Option ((List Char × List Char) × List Char) :=
  match t with
  | [] => none
  | c :: rest =>
    if c = '[' || c = Char.ofNat 123 then
      extIdKeywords.findSome? (fun kw =>
        match matchKeywordExact kw rest with
        | none => none
        | some r1 =>
          let tryAt : List Char → Option ((List Char × List Char) × List Char) :=
            fun r =>
              match r with
              | [] => none
              | s :: r2 =>
                if s = ':' || s = '-' || s = ' ' then
                  let cap := r2.takeWhile (fun ch => ch ≠ ']' && ch ≠ Char.ofNat 125)
                  if cap.isEmpty then none
                  else
                    match (r2.drop cap.length).head? with
                    | some cl =>
                      if cl = ']' || cl = Char.ofNat 125 then
                        some ((kw, cap), r2.drop (cap.length + 1))
                      else none
                    | none => none
                else none
          match matchKeywordExact ['i', 'd'] r1 with
          | some r2 =>
            match tryAt r2 with
            | some res => some res
            | none => tryAt r1
          | none => tryAt r1)
    else none

/-- All `EXTERNAL_ID` matches, scanned left to right (`captures_iter`);
`fuel` bounds the recursion (each match consumes at least one character). -/
def external_ids_scan : Nat → List Char → List (List Char × List Char)
  | 0, _ => []
  | fuel + 1, l =>
    match scanSplit external_id_at l with
    | none => []
    | some (_, kv, rest) => kv :: external_ids_scan fuel rest

/-- Embeds `parse_external_ids`: the `HashMap` is modelled as an association
list where a later insert with the same key overwrites. -/
def parse_external_ids (text : List Char) : List (String × String) :=
  (external_ids_scan (text.length + 1) text).foldl
    (fun m kv =>
      let k : String := ⟨lowerChars kv.1⟩
      (m.filter (fun p => p.1 ≠ k)) ++ [(k, (⟨kv.2⟩ : String))])
    []

/-! ### Data structures and path parsing -/

inductive MediaType
  | Extra
  | TvEpisode
  | Movie
  | Generic
deriving DecidableEq, Repr

structure ExtraInfo where
  path : String
  extra_type : String
deriving DecidableEq, Repr

structure TvEpisodeInfo where
  show_name : String
  source_path : String
  season : Int
  episode : Int
  title : Option String
  ep_end : Option Int
  air_date : Option String
  year : Option Int
  part : Option Int
  version : Option String
  external_ids : List (String × String)
deriving DecidableEq, Repr

structure MovieInfo where
  title : String
  source_path : String
  year : Option Int
  part : Option Int
  version : Option String
  external_ids : List (String × String)
deriving DecidableEq, Repr

structure GenericInfo where
  title : String
deriving DecidableEq, Repr

structure ClassificationResult where
  media_type : MediaType
  extra : Option ExtraInfo
  tv_episode : Option TvEpisodeInfo
  movie : Option MovieInfo
  generic : Option GenericInfo
deriving DecidableEq, Repr

structure PathParts where
  folders : List (List Char)
  filename : List Char
  stem : List Char
deriving DecidableEq, Repr

/-- Model of `str::split` on a separator character (always nonempty). -/
def splitOnChar (sep : Char) : List Char → List (List Char)
  | [] => [[]]
  | c :: t =>
    match splitOnChar sep t with
    | h :: r => if c = sep then [] :: h :: r else (c :: h) :: r
    | [] => [[c]]

/-- Model of `rsplit_once('.')`: the filename stem. -/
def stemOf (filename : List Char) : List Char :=
  match filename.reverse.dropWhile (fun c => c ≠ '.') with
  | [] => filename
  | _ :: before => before.reverse

/-- Embeds `parse_path`. -/
def parse_path (full_path : List Char) : PathParts :=
  let normalized := full_path.map (fun c => if c = '\\' then '/' else c)
  let parts := splitOnChar '/' normalized
  let filename := (parts.getLast?).getD []
  let folders := parts.dropLast.filter (fun s => ¬ s.isEmpty)
  { folders := folders, filename := filename, stem := stemOf filename }

/-! ### Detection stages -/

def extraFolderTable : List (String × String) :=
  [("behind the scenes", "behindthescenes"), ("deleted scenes", "deleted"),
   ("interviews", "interview"), ("scenes", "scene"), ("samples", "sample"),
   ("shorts", "short"), ("featurettes", "featurette"), ("clips", "clip"),
   ("others", "other"), ("extras", "extra"), ("trailers", "trailer")]

def extraSuffixTable : List (String × String) :=
  [("-behindthescenes", "behindthescenes"), ("-deleted", "deleted"),
   ("-featurette", "featurette"), ("-interview", "interview"),
   ("-scene", "scene"), ("-short", "short"), ("-trailer", "trailer"),
   ("-other", "other")]

/-- Model of `Vec::join("/")`. -/
def joinSlash : List (List Char) → List Char
  | [] => []
  | [x] => x
  | x :: y :: rest => x ++ '/' :: joinSlash (y :: rest)

/-- Embeds `detect_extra`. -/
def detect_extra (pp : PathParts) : Option ExtraInfo :=
  let mkPath : String := ⟨'/' :: joinSlash pp.folders ++ '/' :: pp.filename⟩
  match pp.folders.findSome? (fun folder =>
      extraFolderTable.findSome? (fun nt =>
        if lowerChars folder = nt.1.data then some nt.2 else none)) with
  | some et => some { path := mkPath, extra_type := et }
  | none =>
    match extraSuffixTable.findSome? (fun st =>
        if containsSub st.1.data (lowerChars pp.stem) then some st.2 else none) with
    | some et => some { path := mkPath, extra_type := et }
    | none => none

/-- Embeds `find_season_folder`: only the immediate parent folder is
tested against `SEASON_FOLDER`. -/
def find_season_folder (folders : List (List Char)) : Option Nat :=
  match folders.getLast? with
  | some lastF =>
    if season_folder_matches lastF then some (folders.length - 1) else none
  | none => none

/-- Leading slash of `source_path` iff the original path was absolute. -/
def absPrefix (orig : List Char) (p : List Char) : List Char :=
  if orig.head? = some '/' then '/' :: p else p

/-- Embeds `find_source_path`. -/
def find_source_path (folders : List (List Char)) (orig : List Char) : List Char :=
  match find_season_folder folders with
  | some idx =>
    if 0 < idx then absPrefix orig (joinSlash (folders.take idx))
    else absPrefix orig (joinSlash folders)
  | none => absPrefix orig (joinSlash folders)

/-- Embeds `extract_season_from_folder`. -/
def extract_season_from_folder (folder : List Char) : Int :=
  match season_folder_captures folder with
  | some d => (parseI32 d).getD 1
  | none => 1

def is_special_folder (l : List Char) : Bool :=
  lowerChars l = ['s', 'p', 'e', 'c', 'i', 'a', 'l'] ||
    lowerChars l = ['s', 'p', 'e', 'c', 'i', 'a', 'l', 's']

def trimWs (l : List Char) : List Char :=
  ((l.dropWhile isWsChar).reverse.dropWhile isWsChar).reverse

/-- `replace_all` with the empty string: remove every non-overlapping match,
scanning left to right; `fuel` bounds the recursion. -/
def replaceAllScan (f : List Char → Option (Unit × List Char)) :
    Nat → List Char → List Char
  | 0, l => l
  | fuel + 1, l =>
    match scanSplit f l with
    | none => l
    | some (before, _, rest) => before ++ replaceAllScan f fuel rest

/-- Embeds `extract_show_name`. -/
def extract_show_name (folders : List (List Char)) (stem : List Char) : List Char :=
  match folders.reverse.find? (fun f =>
      ¬ season_folder_matches f && ¬ is_special_folder f) with
  | some f => f
  | none =>
    let c1 := replaceAllScan (fun t => (sxxeyy_at t).map (fun p => ((), p.2)))
      (stem.length + 1) stem
    let c2 := replaceAllScan (fun t => (eyy_at t).map (fun p => ((), p.2)))
      (c1.length + 1) c1
    let c3 := replaceAllScan (fun t => (epyy_at t).map (fun p => ((), p.2)))
      (c2.length + 1) c2
    trimWs c3

/-- Embeds `parse_version_title_and_part_from_suffix_tv`.  Note the source
structure: braces are a separate `if`; the dash capture is an `if` whose
`else if` is the brackets capture; a dash label becomes the title exactly
when a version is already set. -/
def parse_version_title_and_part_from_suffix_tv (suffix : List Char)
    (tv : TvEpisodeInfo) : TvEpisodeInfo :=
  let tv1 :=
    match scanTails version_braces_at suffix with
    | some c => { tv with version := some (⟨c⟩ : String) }
    | none => tv
  let tv2 :=
    match scanTails version_dash_at suffix with
    | some d =>
      if tv1.version.isSome then { tv1 with title := some (⟨d⟩ : String) }
      else { tv1 with version := some (⟨d⟩ : String) }
    | none =>
      match scanTails version_brackets_at suffix with
      | some b => { tv1 with version := some (⟨b⟩ : String) }
      | none => tv1
  match scanTails part_pattern_at suffix with
  | some d => { tv2 with part := parseI32 d }
  | none => tv2

/-- Embeds `parse_version_and_part_from_suffix_movie` (a single
`if`/`else if` chain for the three version forms). -/
def parse_version_and_part_from_suffix_movie (suffix : List Char)
    (movie : MovieInfo) : MovieInfo :=
  let m1 :=
    match scanTails version_braces_at suffix with
    | some c => { movie with version := some (⟨c⟩ : String) }
    | none =>
      match scanTails version_dash_at suffix with
      | some d => { movie with version := some (⟨d⟩ : String) }
      | none =>
        match scanTails version_brackets_at suffix with
        | some b => { movie with version := some (⟨b⟩ : String) }
        | none => movie
  match scanTails part_pattern_at suffix with
  | some d => { m1 with part := parseI32 d }
  | none => m1

/-- Embeds `parse_version_title_and_part_after_episode`: re-scan the stem
for the first episode pattern and parse the text after its match end. -/
def parse_version_title_and_part_after_episode (stem : List Char)
    (tv : TvEpisodeInfo) : TvEpisodeInfo :=
  let suffix? : Option (List Char) :=
    match scanTails sxxeyy_at stem with
    | some p => some p.2
    | none =>
      match scanTails eyy_at stem with
      | some p => some p.2
      | none => (scanTails epyy_at stem).map (fun p => p.2)
  match suffix? with
  | some suffix => parse_version_title_and_part_from_suffix_tv suffix tv
  | none => tv

/-- Shared construction of a numbered TV episode result (branches of
`detect_numbered_tv`). -/
def build_numbered_tv (pp : PathParts) (orig : List Char) (season episode : Int)
    (ep_end : Option Int) : TvEpisodeInfo :=
  let tv0 : TvEpisodeInfo :=
    { show_name := (⟨extract_show_name pp.folders pp.stem⟩ : String),
      source_path := (⟨find_source_path pp.folders orig⟩ : String),
      season := season, episode := episode, title := none, ep_end := ep_end,
      air_date := none, year := none, part := none, version := none,
      external_ids := [] }
  let tv1 := parse_version_title_and_part_after_episode pp.stem tv0
  { tv1 with external_ids := parse_external_ids pp.stem }

/-- The specials-folder branch at the end of `detect_numbered_tv`. -/
def specials_branch (pp : PathParts) (orig : List Char) : Option TvEpisodeInfo :=
  match pp.folders.getLast? with
  | some lastF =>
    if is_special_folder lastF then
      match scanTails eyy_at pp.stem with
      | some ((ed, ee), _) =>
        (parseI32 ed).map (fun episode =>
          build_numbered_tv pp orig 0 episode (ee.bind parseI32))
      | none =>
        match scanTails epyy_at pp.stem with
        | some ((ed, ee), _) =>
          (parseI32 ed).map (fun episode =>
            build_numbered_tv pp orig 0 episode (ee.bind parseI32))
        | none => none
    else none
  | none => none

/-- Embeds `detect_numbered_tv`: SxxEyy in the stem, else a season folder
with an `E`/`Ep` stem, else a specials folder with an `E`/`Ep` stem. -/
def detect_numbered_tv (pp : PathParts) (orig : List Char) : Option TvEpisodeInfo :=
  match scanTails sxxeyy_at pp.stem with
  | some ((sd, ed, ee), _) =>
    match parseI32 sd, parseI32 ed with
    | some season, some episode =>
      some (build_numbered_tv pp orig season episode (ee.bind parseI32))
    | _, _ => none
  | none =>
    match find_season_folder pp.folders with
    | some idx =>
      let season := extract_season_from_folder (pp.folders.getD idx [])
      match scanTails eyy_at pp.stem with
      | some ((ed, ee), _) =>
        (parseI32 ed).map (fun episode =>
          build_numbered_tv pp orig season episode (ee.bind parseI32))
      | none =>
        match scanTails epyy_at pp.stem with
        | some ((ed, ee), _) =>
          (parseI32 ed).map (fun episode =>
            build_numbered_tv pp orig season episode (ee.bind parseI32))
        | none => specials_branch pp orig
    | none => specials_branch pp orig

/-! ### Dates -/

def isLeapYear (y : Int) : Bool := (y % 4 = 0 && y % 100 ≠ 0) || y % 400 = 0

def daysInMonth (y : Int) (m : Nat) : Nat :=
  if m = 1 then 31
  else if m = 2 then (if isLeapYear y then 29 else 28)
  else if m = 3 then 31
  else if m = 4 then 30
  else if m = 5 then 31
  else if m = 6 then 30
  else if m = 7 then 31
  else if m = 8 then 31
  else if m = 9 then 30
  else if m = 10 then 31
  else if m = 11 then 30
  else 31

/-- Days between the proleptic-Gregorian civil date and 1970-01-01
(Hinnant's `days_from_civil`), for a valid date. -/
def days_from_civil (y : Int) (m d : Nat) : Int :=
  let yAdj := if m ≤ 2 then y - 1 else y
  let era := Int.fdiv yAdj 400
  let yoe := yAdj - era * 400
  let mp : Int := if 2 < m then (m : Int) - 3 else (m : Int) + 9
  let doy := Int.fdiv (153 * mp + 2) 5 + (d : Int) - 1
  let doe := yoe * 365 + Int.fdiv yoe 4 - Int.fdiv yoe 100 + doy
  era * 146097 + doe - 719468

/-- Embeds `days_since_epoch` together with chrono's `from_ymd_opt` date
validation: `none` models the `expect("Invalid date")` panic on an invalid
calendar date. -/
def days_since_epoch (y : Int) (m d : Nat) : Option Int :=
  if 1 ≤ m ∧ m ≤ 12 ∧ 1 ≤ d ∧ d ≤ daysInMonth y m then
    some (days_from_civil y m d)
  else none

def padNat (w : Nat) (n : Nat) : List Char :=
  let d := Nat.toDigits 10 n
  List.replicate (w - d.length) '0' ++ d

/-- Model of `format!("{:04}-{:02}-{:02}", year, month, day)` for the
nonnegative values produced by the date captures. -/
def formatDate (y mo d : Int) : String :=
  ⟨padNat 4 y.toNat ++ '-' :: padNat 2 mo.toNat ++ '-' :: padNat 2 d.toNat⟩

/-- Wrapping cast `as i32` from a mathematical integer. -/
def i32_wrap (v : Int) : Int := (v + 2147483648) % 4294967296 - 2147483648

/-- Embeds `detect_date_tv`.  The outer `Option` models panics: `none` is
the `days_since_epoch` panic, `some none` means the stage found no episode,
`some (some tv)` is a date-based episode. -/
def detect_date_tv (pp : PathParts) (orig : List Char) :
    Option (Option TvEpisodeInfo) :=
  let isoCaps := scanTails date_iso_at pp.stem
  let caps :=
    match isoCaps with
    | some c => some c
    | none => scanTails date_dmy_at pp.stem
  match caps with
  | none => some none
  | some ((a, b, c), _) =>
    let ymd : Option (Int × Int × Int) :=
      if isoCaps.isSome then
        (parseI32 a).bind (fun y => (parseI32 b).bind (fun mo =>
          (parseI32 c).map (fun d => (y, mo, d))))
      else
        (parseI32 a).bind (fun d => (parseI32 b).bind (fun mo =>
          (parseI32 c).map (fun y => (y, mo, d))))
    match ymd with
    | none => some none
    | some (y, mo, d) =>
      let air_date := formatDate y mo d
      match days_since_epoch y mo.toNat d.toNat with
      | none => none
      | some epochDays =>
        let season :=
          match find_season_folder pp.folders with
          | some idx => extract_season_from_folder (pp.folders.getD idx [])
          | none => y
        let tv0 : TvEpisodeInfo :=
          { show_name := (⟨extract_show_name pp.folders pp.stem⟩ : String),
            source_path := (⟨find_source_path pp.folders orig⟩ : String),
            season := season, episode := i32_wrap epochDays, title := none,
            ep_end := none, air_date := some air_date, year := some y,
            part := none, version := none, external_ids := [] }
        let tv1 := parse_version_title_and_part_after_episode pp.stem tv0
        some (some { tv1 with external_ids := parse_external_ids pp.stem })

/-! ### Movies and the classifier entry point -/

/-- Embeds the leftmost match of `MOVIE_YEAR_PARENS = (.+?)\s*\((\d{4})\)`:
outer loop over start positions, inner lazy loop over the capture end;
returns (title capture, year digits, text after the match). -/
def movie_year_parens_captures (stem : List Char) :
    Option (List Char × List Char × List Char) :=
  (List.range stem.length).findSome? (fun p =>
    let rest := stem.drop p
    let L := (rest.takeWhile (fun c => c ≠ Char.ofNat 10)).length
    (List.range L).findSome? (fun j =>
      let k := j + 1
      let title := rest.take k
      let u1 := dropWsChars (rest.drop k)
      match u1 with
      | '(' :: u2 =>
        let y := (digitRun u2).take 4
        if y.length = 4 then
          match (u2.drop 4).head? with
          | some cp => if cp = ')' then some (title, y, u2.drop 5) else none
          | none => none
        else none
      | _ => none))

/-- Embeds the leftmost match of `MOVIE_YEAR_DOTS = (.+?)\.(\d{4})`. -/
def movie_year_dots_captures (stem : List Char) :
    Option (List Char × List Char × List Char) :=
  (List.range stem.length).findSome? (fun p =>
    let rest := stem.drop p
    let L := (rest.takeWhile (fun c => c ≠ Char.ofNat 10)).length
    (List.range L).findSome? (fun j =>
      let k := j + 1
      match rest.drop k with
      | '.' :: u2 =>
        let y := (digitRun u2).take 4
        if y.length = 4 then some (rest.take k, y, u2.drop 4) else none
      | _ => none))

/-- Embeds `parse_version_and_part_after_year`. -/
def parse_version_and_part_after_year (stem : List Char) (movie : MovieInfo) :
    MovieInfo :=
  let suffix? : Option (List Char) :=
    match movie_year_parens_captures stem with
    | some p => some p.2.2
    | none => (movie_year_dots_captures stem).map (fun p => p.2.2)
  match suffix? with
  | some suffix => parse_version_and_part_from_suffix_movie suffix movie
  | none => movie

/-- Embeds `detect_movie`. -/
def detect_movie (pp : PathParts) (orig : List Char) : Option MovieInfo :=
  match movie_year_parens_captures pp.stem with
  | some (titleRaw, y, _) =>
    match parseI32 y with
    | none => none
    | some year =>
      let m0 : MovieInfo :=
        { title := (⟨trimWs titleRaw⟩ : String),
          source_path := (⟨find_source_path pp.folders orig⟩ : String),
          year := some year, part := none, version := none, external_ids := [] }
      let m1 := parse_version_and_part_after_year pp.stem m0
      some { m1 with external_ids := parse_external_ids pp.stem }
  | none =>
    match movie_year_dots_captures pp.stem with
    | some (titleRaw, y, _) =>
      match parseI32 y with
      | none => none
      | some year =>
        let m0 : MovieInfo :=
          { title := (⟨trimWs titleRaw⟩ : String),
            source_path := (⟨find_source_path pp.folders orig⟩ : String),
            year := some year, part := none, version := none, external_ids := [] }
        let m1 := parse_version_and_part_after_year pp.stem m0
        some { m1 with external_ids := parse_external_ids pp.stem }
    | none => none

/-- Embeds `classify_path`; `none` models a panic (the only panic site in
the classifier is `days_since_epoch`'s `expect` on an invalid date). -/
def classify_path (full_path : String) : Option ClassificationResult :=
  let pp := parse_path full_path.data
  match detect_extra pp with
  | some e =>
    some { media_type := MediaType.Extra, extra := some e, tv_episode := none,
           movie := none, generic := none }
  | none =>
    match detect_numbered_tv pp full_path.data with
    | some tv =>
      some { media_type := MediaType.TvEpisode, extra := none,
             tv_episode := some tv, movie := none, generic := none }
    | none =>
      match detect_date_tv pp full_path.data with
      | none => none
      | some (some tv) =>
        some { media_type := MediaType.TvEpisode, extra := none,
               tv_episode := some tv, movie := none, generic := none }
      | some none =>
        match detect_movie pp full_path.data with
        | some m =>
          some { media_type := MediaType.Movie, extra := none,
                 tv_episode := none, movie := some m, generic := none }
        | none =>
          some { media_type := MediaType.Generic, extra := none,
                 tv_episode := none, movie := none,
                 generic := some { title := (⟨pp.filename⟩ : String) } }

/-! ## Store rows and repository operations

The row types mirror `src-tauri/src/db/models.rs`, restricted to the columns
the scanner reads or writes (technical columns that the scanner always
leaves at their defaults are omitted; `metadata` is modelled as the
key/value pairs the scanner stores in the JSON bag).  The repository
functions called by the scanner are absent from the sources (only their
callers are), so they are modelled from the spec's §4.3 operation list. -/

structure VideoItem where
  id : Nat
  index_id : Nat
  itemType : String
  parent_id : Option Nat
  title : String
  source_path : Option String
  number : Option Int
  metadata : List (String × String)
deriving DecidableEq, Repr

structure VideoVersion where
  id : Nat
  item_id : Nat
  edition : Option String
deriving DecidableEq, Repr

structure VideoPart where
  id : Nat
  version_id : Nat
  path : String
  size : Option Int
  mtime : Option Int
  part_index : Int
  fast_hash : Option String
  updated_at : Int
deriving DecidableEq, Repr

structure Store where
  items : List VideoItem
  versions : List VideoVersion
  parts : List VideoPart
  items_next_id : Nat
  versions_next_id : Nat
  parts_next_id : Nat
deriving DecidableEq, Repr

/-- Modelled from the spec: `VideoParts.list-by-size-and-hash`, the content
identity probe. -/
def get_video_parts_by_size_and_hash (st : Store) (size : Int) (hash : String) :
    List VideoPart :=
  st.parts.filter (fun p => p.size = some size ∧ p.fast_hash = some hash)

/-- Modelled from the spec: `VideoParts.update updated_at`. -/
def update_video_part_updated_at (st : Store) (id : Nat) (now : Int) : Store :=
  { st with parts := st.parts.map (fun p =>
      if p.id = id then { p with updated_at := now } else p) }

/-- Modelled from the spec: `VideoParts.update path+mtime`; the call site
comment reads "Update path and updated_at", so `updated_at` is bumped too. -/
def update_video_part_path (st : Store) (id : Nat) (path : String)
    (mtime : Int) (now : Int) : Store :=
  { st with parts := st.parts.map (fun p =>
      if p.id = id then { p with path := path, mtime := some mtime, updated_at := now }
      else p) }

/-- Modelled from the spec: `VideoParts.get-by-id`. -/
def get_video_part_by_id (st : Store) (id : Nat) : Option VideoPart :=
  st.parts.find? (fun p => p.id = id)

/-- Modelled from the spec: `VideoVersions.get-by-id`. -/
def get_video_version_by_id (st : Store) (id : Nat) : Option VideoVersion :=
  st.versions.find? (fun v => v.id = id)

/-- Modelled from the spec: `VideoItems` get by id. -/
def get_video_item_by_id (st : Store) (id : Nat) : Option VideoItem :=
  st.items.find? (fun i => i.id = id)

/-- Modelled from the spec: `VideoItems.list-by-source-path` within an index. -/
def get_video_items_by_source_path (st : Store) (index_id : Nat) (sp : String) :
    List VideoItem :=
  st.items.filter (fun i => i.index_id = index_id ∧ i.source_path = some sp)

/-- Modelled from the spec: `VideoItems.update source_path`. -/
def update_video_item_source_path (st : Store) (id : Nat) (sp : Option String) : Store :=
  { st with items := st.items.map (fun i =>
      if i.id = id then { i with source_path := sp } else i) }

/-- Modelled from the spec: `VideoItems.add` (insert, returning the row id). -/
def add_video_item (st : Store) (index_id : Nat) (itemType title : String)
    (parent_id : Option Nat) (source_path : Option String)
    (metadata : List (String × String)) : Nat × Store :=
  (st.items_next_id,
   { st with
      items := st.items ++
        [{ id := st.items_next_id, index_id := index_id, itemType := itemType,
           parent_id := parent_id, title := title, source_path := source_path,
           number := none, metadata := metadata }],
      items_next_id := st.items_next_id + 1 })

/-- Modelled from the spec: `VideoItems.add` with an ordinal `number`. -/
def add_video_item_with_number (st : Store) (index_id : Nat) (itemType title : String)
    (parent_id : Option Nat) (source_path : Option String) (number : Int)
    (metadata : List (String × String)) : Nat × Store :=
  (st.items_next_id,
   { st with
      items := st.items ++
        [{ id := st.items_next_id, index_id := index_id, itemType := itemType,
           parent_id := parent_id, title := title, source_path := source_path,
           number := some number, metadata := metadata }],
      items_next_id := st.items_next_id + 1 })

/-- Modelled from the spec: `VideoVersions.add` (the scanner passes only the
edition; the technical columns stay at their defaults). -/
def add_video_version_with_params (st : Store) (item_id : Nat)
    (edition : Option String) : Nat × Store :=
  (st.versions_next_id,
   { st with
      versions := st.versions ++
        [{ id := st.versions_next_id, item_id := item_id, edition := edition }],
      versions_next_id := st.versions_next_id + 1 })

/-- Modelled from the spec: `VideoParts.add`. -/
def add_video_part_with_params (st : Store) (version_id : Nat) (path : String)
    (size mtime : Option Int) (part_index : Int) (fast_hash : Option String)
    (now : Int) : Nat × Store :=
  (st.parts_next_id,
   { st with
      parts := st.parts ++
        [{ id := st.parts_next_id, version_id := version_id, path := path,
           size := size, mtime := mtime, part_index := part_index,
           fast_hash := fast_hash, updated_at := now }],
      parts_next_id := st.parts_next_id + 1 })

/-- Modelled from the spec: `VideoItems.list-by-title` within an index. -/
def get_video_items_by_title (st : Store) (index_id : Nat) (title : String) :
    List VideoItem :=
  st.items.filter (fun i => i.index_id = index_id ∧ i.title = title)

/-- Modelled from the spec: `VideoItems.list-by-parent-and-number`. -/
def get_video_items_by_parent_and_number (st : Store) (parent : Nat) (n : Int) :
    List VideoItem :=
  st.items.filter (fun i => i.parent_id = some parent ∧ i.number = some n)

/-- Modelled from the spec: `VideoParts.list-by-version`. -/
def get_video_parts_by_version (st : Store) (vid : Nat) : List VideoPart :=
  st.parts.filter (fun p => p.version_id = vid)

/-- Modelled from the spec: `VideoVersions.list-by-item`. -/
def get_video_versions_by_item (st : Store) (iid : Nat) : List VideoVersion :=
  st.versions.filter (fun v => v.item_id = iid)

/-- Modelled from the spec: `VideoVersions.update item_id` (reparenting). -/
def update_video_version_item_id (st : Store) (vid new_item : Nat) : Store :=
  { st with versions := st.versions.map (fun v =>
      if v.id = vid then { v with item_id := new_item } else v) }

/-- Modelled from the spec: `VideoParts.update version_id` (reparenting). -/
def update_video_part_version_id (st : Store) (pid new_version : Nat) : Store :=
  { st with parts := st.parts.map (fun p =>
      if p.id = pid then { p with version_id := new_version } else p) }

/-- Modelled from the spec: `VideoItems.delete`. -/
def delete_video_item (st : Store) (id : Nat) : Store :=
  { st with items := st.items.filter (fun i => i.id ≠ id) }

/-! ## Scanner — embedding of `src-tauri/src/scanning/video_scanning.rs`
and `src-tauri/src/scanning/temp_files.rs` -/

structure TempVideoItem where
  file_path : String
  media_type : MediaType
  tv_episode : Option TvEpisodeInfo
  movie : Option MovieInfo
  generic : Option GenericInfo
  file_size : Int
  mtime : Int
  fast_hash : String
deriving DecidableEq, Repr

structure TempExtraItem where
  file_path : String
  extra : ExtraInfo
  file_size : Int
  mtime : Int
  fast_hash : String
deriving DecidableEq, Repr

/-- The `TempFileManager` buffers (new content, extras). -/
structure TempBufs where
  new_content : List TempVideoItem
  extras : List TempExtraItem
deriving DecidableEq, Repr

/-- Model of `Path::parent().to_str()`: the path up to the last slash
(`none` when the path has no slash). -/
def parentPathStr (p : String) : Option String :=
  if p.data.contains '/' then
    some (⟨((p.data.reverse.dropWhile (fun c => c ≠ '/')).drop 1).reverse⟩ : String)
  else none

/-- Model of `Path::parent().and_then(|q| q.file_name())`: the name of the
directory containing the file. -/
def parentDirName (p : String) : Option String :=
  match parentPathStr p with
  | none => none
  | some b =>
    match ((splitOnChar '/' b.data).filter (fun s => ¬ s.isEmpty)).getLast? with
    | some comp => some (⟨comp⟩ : String)
    | none => none

/-- Model of `Path::file_stem` with the `unwrap_or("Unknown")` of
`add_movie_immediately`. -/
def fileStemOf (p : String) : String :=
  let name := ((splitOnChar '/' p.data).getLast?).getD []
  if name.isEmpty then "Unknown" else (⟨stemOf name⟩ : String)

/-- Embeds the `normalize` closure of `is_movie_in_matching_folder`:
remove spaces and dots, then lowercase. -/
def normalizeName (s : String) : List Char :=
  lowerChars (s.data.filter (fun c => c ≠ ' ' && c ≠ '.'))

/-- Embeds `is_movie_in_matching_folder`. -/
def is_movie_in_matching_folder (movie_title : String) (movie_year : Option Int)
    (folder_name : String) : Bool :=
  let nt := normalizeName movie_title
  let nf := normalizeName folder_name
  if ¬ containsSub nt nf then false
  else
    match movie_year with
    | some y => containsSub (toString y).data nf
    | none => true

/-- Embeds the movie/TV `source_path` computation of `process_video_file`
(the same `match` appears in its hit-with-different-path and miss arms). -/
def scan_source_path_for (file_path : String) (classified : ClassificationResult) :
    Option String :=
  match classified.media_type with
  | MediaType.Movie =>
    match classified.movie with
    | some movie =>
      match parentDirName file_path with
      | some folder_name =>
        if is_movie_in_matching_folder movie.title movie.year folder_name then
          parentPathStr file_path
        else none
      | none => none
    | none => none
  | MediaType.TvEpisode =>
    match classified.tv_episode with
    | some tv => some tv.source_path
    | none => none
  | _ => none

/-- Embeds `add_movie_immediately`: the classifier output is discarded (the
Rust parameter is `_classified`); the title is the filename stem. -/
def add_movie_immediately (st : Store) (index_id : Nat) (file_path : String)
    (file_size mtime : Int) (fast_hash : String) (now : Int) : Store :=
  let title := fileStemOf file_path
  let existing := get_video_items_by_title st index_id title
  let idSt :=
    match existing.head? with
    | some it => (it.id, st)
    | none => add_video_item st index_id "movie" title none none []
  let vSt := add_video_version_with_params idSt.2 idSt.1 none
  (add_video_part_with_params vSt.2 vSt.1 file_path (some file_size) (some mtime)
    0 (some fast_hash) now).2

/-- Embeds `process_temp_movie`: upsert the item by `(index, source_path)`,
then insert a fresh version (edition = parsed version) and a part with
`part_index` 0. -/
def process_temp_movie (st : Store) (index_id : Nat) (item : TempVideoItem)
    (movie : MovieInfo) (now : Int) : Store :=
  let existing := get_video_items_by_source_path st index_id movie.source_path
  let idSt :=
    match existing.head? with
    | some it => (it.id, st)
    | none => add_video_item st index_id "movie" movie.title none
        (some movie.source_path) []
  let vSt := add_video_version_with_params idSt.2 idSt.1 movie.version
  (add_video_part_with_params vSt.2 vSt.1 item.file_path (some item.file_size)
    (some item.mtime) 0 (some item.fast_hash) now).2

/-- Embeds `process_temp_tv_episode`: upsert show by source_path, season by
(show, number), episode by (season, number); then a fresh version and part. -/
def process_temp_tv_episode (st : Store) (index_id : Nat) (item : TempVideoItem)
    (tv : TvEpisodeInfo) (now : Int) : Store :=
  let showSt :=
    match (get_video_items_by_source_path st index_id tv.source_path).head? with
    | some s => (s.id, st)
    | none => add_video_item st index_id "show" tv.show_name none
        (some tv.source_path) []
  let season_title := if tv.season = 0 then "Specials" else "Season " ++ toString tv.season
  let seasonSt :=
    match (get_video_items_by_parent_and_number showSt.2 showSt.1 tv.season).head? with
    | some s => (s.id, showSt.2)
    | none => add_video_item_with_number showSt.2 index_id "season" season_title
        (some showSt.1) none tv.season []
  let episode_title :=
    match tv.title with
    | some t => t
    | none =>
      match tv.air_date with
      | some ad => ad
      | none => "Episode " ++ toString tv.episode
  let epSt :=
    match (get_video_items_by_parent_and_number seasonSt.2 seasonSt.1 tv.episode).head? with
    | some e => (e.id, seasonSt.2)
    | none =>
      let md :=
        match tv.air_date with
        | some ad => [("air_date", ad)]
        | none => []
      add_video_item_with_number seasonSt.2 index_id "episode" episode_title
        (some seasonSt.1) none tv.episode md
  let vSt := add_video_version_with_params epSt.2 epSt.1 tv.version
  (add_video_part_with_params vSt.2 vSt.1 item.file_path (some item.file_size)
    (some item.mtime) 0 (some item.fast_hash) now).2

/-- Embeds `process_temp_generic`: upsert by title, kind `video`. -/
def process_temp_generic (st : Store) (index_id : Nat) (item : TempVideoItem)
    (generic : GenericInfo) (now : Int) : Store :=
  let idSt :=
    match (get_video_items_by_title st index_id generic.title).head? with
    | some it => (it.id, st)
    | none => add_video_item st index_id "video" generic.title none none []
  let vSt := add_video_version_with_params idSt.2 idSt.1 none
  (add_video_part_with_params vSt.2 vSt.1 item.file_path (some item.file_size)
    (some item.mtime) 0 (some item.fast_hash) now).2

/-- Embeds `process_temp_video_item` (the `Extra` arm is unreachable in the
source). -/
def process_temp_video_item (st : Store) (index_id : Nat) (item : TempVideoItem)
    (now : Int) : Store :=
  match item.media_type with
  | MediaType.Movie =>
    match item.movie with
    | some m => process_temp_movie st index_id item m now
    | none => st
  | MediaType.TvEpisode =>
    match item.tv_episode with
    | some tv => process_temp_tv_episode st index_id item tv now
    | none => st
  | MediaType.Generic =>
    match item.generic with
    | some g => process_temp_generic st index_id item g now
    | none => st
  | MediaType.Extra => st

/-- The new-content half of `process_temp_files`: commit buffered items in
order. -/
def commit_new_content (st : Store) (index_id : Nat) (items : List TempVideoItem)
    (now : Int) : Store :=
  items.foldl (fun s it => process_temp_video_item s index_id it now) st

/-- Embeds `move_video_part_to_item`. -/
def move_video_part_to_item (st : Store)
    (video_part_id video_version_id old_item_id new_item_id : Nat) :
    Except String Store :=
  let other_parts := (get_video_parts_by_version st video_version_id).filter
    (fun p => p.id ≠ video_part_id)
  let step1 : Except String Store :=
    if other_parts.isEmpty then
      Except.ok (update_video_version_item_id st video_version_id new_item_id)
    else
      match get_video_version_by_id st video_version_id with
      | none => Except.error "Video version not found"
      | some vv =>
        let nvSt := add_video_version_with_params st new_item_id vv.edition
        Except.ok (update_video_part_version_id nvSt.2 video_part_id nvSt.1)
  match step1 with
  | Except.error e => Except.error e
  | Except.ok st1 =>
    let remaining := get_video_versions_by_item st1 old_item_id
    Except.ok (if remaining.isEmpty then delete_video_item st1 old_item_id else st1)

/-- Embeds `handle_episode_migration`; `fs` models
`Path::new(old_source_path).exists()`. -/
def handle_episode_migration (fs : String → Bool) (st : Store)
    (video_part_id : Nat) (old_source_path new_source_path : String) :
    Except String Store :=
  match get_video_part_by_id st video_part_id with
  | none => Except.error "Video part not found"
  | some video_part =>
    match get_video_version_by_id st video_part.version_id with
    | none => Except.error "Video version not found"
    | some video_version =>
      match get_video_item_by_id st video_version.item_id with
      | none => Except.error "Video item not found"
      | some video_item =>
        let old_path_exists := fs old_source_path
        let new_path_items :=
          get_video_items_by_source_path st video_item.index_id new_source_path
        match old_path_exists, new_path_items.head? with
        | false, none =>
          Except.ok (update_video_item_source_path st video_item.id
            (some new_source_path))
        | false, some new_item =>
          move_video_part_to_item st video_part_id video_version.id
            video_item.id new_item.id
        | true, none =>
          let niSt := add_video_item st video_item.index_id video_item.itemType
            video_item.title video_item.parent_id (some new_source_path)
            video_item.metadata
          move_video_part_to_item niSt.2 video_part_id video_version.id
            video_item.id niSt.1
        | true, some new_item =>
          move_video_part_to_item st video_part_id video_version.id
            video_item.id new_item.id

/-- Embeds `process_video_file`.  The file's size, mtime and fingerprint are
inputs (the Rust function obtains them by I/O); `fs` models directory
existence for migration; a classifier panic surfaces as an error. -/
def process_video_file (fs : String → Bool) (st : Store) (index_id : Nat)
    (file_path : String) (file_size mtime : Int) (fast_hash : String)
    (tracker : Option String) (temps : TempBufs) (now : Int) :
    Except String (Store × Option String × TempBufs) :=
  let existing_parts := get_video_parts_by_size_and_hash st file_size fast_hash
  match existing_parts.head? with
  | some existing_part =>
    if existing_part.path = file_path then
      Except.ok (update_video_part_updated_at st existing_part.id now, tracker, temps)
    else
      match classify_path file_path with
      | none => Except.error "panic: invalid date"
      | some classified =>
        match get_video_version_by_id st existing_part.version_id with
        | none => Except.error "Video version not found"
        | some video_version =>
          match get_video_item_by_id st video_version.item_id with
          | none => Except.error "Video item not found"
          | some video_item =>
            let new_source_path := scan_source_path_for file_path classified
            let afterMigration : Except String Store :=
              match new_source_path with
              | some nsp =>
                if video_item.source_path ≠ some nsp then
                  match video_item.source_path with
                  | some osp =>
                    handle_episode_migration fs st existing_part.id osp nsp
                  | none =>
                    Except.ok (update_video_item_source_path st video_item.id
                      (some nsp))
                else Except.ok st
              | none => Except.ok st
            match afterMigration with
            | Except.error e => Except.error e
            | Except.ok st1 =>
              Except.ok (update_video_part_path st1 existing_part.id file_path
                mtime now, tracker, temps)
  | none =>
    match classify_path file_path with
    | none => Except.error "panic: invalid date"
    | some classified =>
      if classified.media_type = MediaType.Extra then
        match classified.extra with
        | some extra =>
          Except.ok (st, tracker,
            { temps with extras := temps.extras ++
                [{ file_path := file_path, extra := extra, file_size := file_size,
                   mtime := mtime, fast_hash := fast_hash }] })
        | none => Except.ok (st, tracker, temps)
      else
        let source_path := scan_source_path_for file_path classified
        let trackStep : Except String (Option String) :=
          match source_path with
          | some sp =>
            match tracker with
            | none => Except.ok (some sp)
            | some existing =>
              if existing = sp then Except.ok tracker
              else Except.error "Source path conflict"
          | none => Except.ok tracker
        match trackStep with
        | Except.error e => Except.error e
        | Except.ok tracker1 =>
          if classified.media_type = MediaType.Movie ∧ source_path = none then
            match tracker1 with
            | none =>
              Except.ok (add_movie_immediately st index_id file_path file_size
                mtime fast_hash now, tracker1, temps)
            | some _ =>
              Except.error "Movie without source_path found within source_path structure"
          else
            Except.ok (st, tracker1,
              { temps with new_content := temps.new_content ++
                  [{ file_path := file_path, media_type := classified.media_type,
                     tv_episode := classified.tv_episode, movie := classified.movie,
                     generic := classified.generic, file_size := file_size,
                     mtime := mtime, fast_hash := fast_hash }] })

/-! ## Scanning cycle — embedding of `src-tauri/src/scanning_process.rs` -/

structure IndexRec where
  id : Nat
  indexType : String
  scan_status : String
  last_scanned_at : Int
deriving DecidableEq, Repr

/-- Modelled from the spec: `Indexes.list-by-scan-status`. -/
def get_indexes_by_scan_status (l : List IndexRec) (status : String) :
    List IndexRec :=
  l.filter (fun i => i.scan_status = status)

/-- Modelled from the spec: `Indexes.update-scan-status`. -/
def update_scan_status (l : List IndexRec) (id : Nat) (status : String) :
    List IndexRec :=
  l.map (fun i => if i.id = id then { i with scan_status := status } else i)

/-- The recovery `for` loop of `process_scanning_cycle`: `scan_video_index`
errors propagate with `?`; unsupported index kinds are marked failed. -/
def recovery_loop
    (scanIdx : List IndexRec → IndexRec → List IndexRec × Option String) :
    List IndexRec → List IndexRec → List IndexRec × Option String
  | l, [] => (l, none)
  | l, idx :: rest =>
    if idx.indexType = "videos" then
      match scanIdx l idx with
      | (l1, some e) => (l1, some e)
      | (l1, none) => recovery_loop scanIdx l1 rest
    else
      recovery_loop scanIdx (update_scan_status l idx.id "failed") rest

/-- Embeds `process_scanning_cycle`.  `scanIdx` abstracts
`scan_video_index`: it returns the store state it leaves behind plus an
optional error (the store persists across an error).  The second component
is the cycle's own result: a propagated error, or the "scanned something"
flag. -/
def process_scanning_cycle
    (scanIdx : List IndexRec → IndexRec → List IndexRec × Option String)
    (l : List IndexRec) : List IndexRec × Except String Bool :=
  let scanning := get_indexes_by_scan_status l "scanning"
  if scanning.isEmpty then
    match get_indexes_by_scan_status l "queued" with
    | [] => (l, Except.ok false)
    | q0 :: qrest =>
      let oldest := qrest.foldl
        (fun acc x => if x.last_scanned_at ≤ acc.last_scanned_at then x else acc) q0
      let l1 := update_scan_status l oldest.id "scanning"
      if oldest.indexType = "videos" then
        match scanIdx l1 oldest with
        | (l2, some _) => (update_scan_status l2 oldest.id "failed", Except.ok false)
        | (l2, none) => (l2, Except.ok true)
      else
        (update_scan_status l1 oldest.id "failed", Except.ok false)
  else
    match recovery_loop scanIdx l scanning with
    | (l1, some e) => (l1, Except.error e)
    | (l1, none) => (l1, Except.ok true)

/-! ## Concrete scan scenarios and spec-side predicates -/

def emptyStore : Store :=
  { items := [], versions := [], parts := [],
    items_next_id := 1, versions_next_id := 1, parts_next_id := 1 }

def emptyTemps : TempBufs := { new_content := [], extras := [] }

/-- A neutral TV-episode record for instantiating suffix-parse lemmas. -/
def sampleTv : TvEpisodeInfo :=
  { show_name := "S", source_path := "", season := 1, episode := 1,
    title := none, ep_end := none, air_date := none, year := none,
    part := none, version := none, external_ids := [] }

/-- Store after scanning `/a/Show/Season 1/E01.mkv` into empty index 1:
the probe misses, the episode is buffered, and the source-path commit runs. -/
def rename_scenario_store : Store :=
  match process_video_file (fun _ => true) emptyStore 1
      "/a/Show/Season 1/E01.mkv" 100 5 "h1" none emptyTemps 10 with
  | Except.ok (st, _, temps) => commit_new_content st 1 temps.new_content 10
  | Except.error _ => emptyStore

/-- Re-scan after the file moved to `/b/Show/Season 1/E01.mkv` with the same
bytes: the probe hits, the old directory is absent (`fs` is constantly
false), and no item with the new source_path exists. -/
def rename_rescan_result : Except String (Store × Option String × TempBufs) :=
  process_video_file (fun _ => false) rename_scenario_store 1
    "/b/Show/Season 1/E01.mkv" 100 5 "h1" none emptyTemps 20

/-- Successful scan outcome, `none` on error. -/
def scanOutcome (r : Except String (Store × Option String × TempBufs)) :
    Option (Store × Option String × TempBufs) :=
  match r with
  | Except.ok v => some v
  | Except.error _ => none

/-- The store left by the re-scan of the moved episode file. -/
def rename_rescan_store : Store :=
  match rename_rescan_result with
  | Except.ok (st, _, _) => st
  | Except.error _ => emptyStore

/-- Store after scanning the two-part movie
`/Movies/Avatar (2009)/Avatar (2009) - part{1,2}.mkv` into empty index 1
and committing the buffered batch. -/
def multipart_store : Store :=
  match process_video_file (fun _ => true) emptyStore 1
      "/Movies/Avatar (2009)/Avatar (2009) - part1.mkv" 111 5 "h1" none emptyTemps 10 with
  | Except.ok (st1, tr1, tm1) =>
    match process_video_file (fun _ => true) st1 1
        "/Movies/Avatar (2009)/Avatar (2009) - part2.mkv" 222 6 "h2" tr1 tm1 11 with
    | Except.ok (st2, _, tm2) => commit_new_content st2 1 tm2.new_content 12
    | Except.error _ => emptyStore
  | Except.error _ => emptyStore

/-- The spec's folder-matching normalization, in the spec's own order:
lowercase, then remove spaces and dots. -/
def normalizeNameSpec (s : String) : List Char :=
  (lowerChars s.data).filter (fun c => c ≠ ' ' && c ≠ '.')

/-- The spec's predicate for when a movie's parent folder matches: the
normalized folder name contains the normalized title and, when a year was
parsed, the year's digits as a substring. -/
def movie_folder_matches_spec (title : String) (year : Option Int)
    (folder : String) : Bool :=
  containsSub (normalizeNameSpec title) (normalizeNameSpec folder) &&
    (match year with
     | some y => containsSub (toString y).data (normalizeNameSpec folder)
     | none => true)

/-- Decidable equality on `Except` results. -/
instance (ε α : Type) [DecidableEq ε] [DecidableEq α] :
    DecidableEq (Except ε α) := fun a b =>
  match a, b with
  | Except.error e1, Except.error e2 =>
    if h : e1 = e2 then Decidable.isTrue (congrArg Except.error h)
    else Decidable.isFalse (fun hc => h (Except.error.inj hc))
  | Except.ok a1, Except.ok a2 =>
    if h : a1 = a2 then Decidable.isTrue (congrArg Except.ok h)
    else Decidable.isFalse (fun hc => h (Except.ok.inj hc))
  | Except.error _, Except.ok _ => Decidable.isFalse (fun hc => Except.noConfusion hc)
  | Except.ok _, Except.error _ => Decidable.isFalse (fun hc => Except.noConfusion hc)

/-! # Theorems -/

theorem hexDigitChar_mem (d : Nat) (hd : d < 16) : hexDigitChar d ∈ lowerHexAlphabet := by
  interval_cases d <;> decide

theorem formatHex32_length (v : Nat) : (formatHex32 v).length = 32 := by
  simp [formatHex32, String.length]

theorem formatHex32_lowerHex (v : Nat) :
    ∀ c ∈ (formatHex32 v).data, c ∈ lowerHexAlphabet := by
  intro c hc
  simp only [formatHex32, List.mem_map] at hc
  obtain ⟨i, _, rfl⟩ := hc
  exact hexDigitChar_mem _ (Nat.mod_lt _ (by norm_num))

theorem read_exact_of_le (file : List Nat) (pos len : Nat) (hle : pos + len ≤ file.length) :
    read_exact file pos len = some ((file.drop pos).take len) := by
  simp [read_exact, hle]

/-- C1: for files below 40 MiB the whole file is hashed with xxh3-128; at and
above 40 MiB, with `gap = (size − 4 MiB) / 4`, the five 4-MiB segments at
offsets `0`, `gap`, `2·gap`, `3·gap`, `size − 4 MiB` are concatenated in read
order and hashed; in both cases the output is the lowercase hex encoding
zero-padded to 32 characters. -/
theorem calculate_fast_hash_spec (h : List Nat → Nat) (file : List Nat) :
    (file.length < 40 * 1024 * 1024 →
      calculate_fast_hash h file = some (formatHex32 (h file % 2 ^ 128))) ∧
    (40 * 1024 * 1024 ≤ file.length →
      calculate_fast_hash h file =
        some (formatHex32 (h
          (segmentAt file 0 ++
            segmentAt file ((file.length - 4 * 1024 * 1024) / 4) ++
            segmentAt file (2 * ((file.length - 4 * 1024 * 1024) / 4)) ++
            segmentAt file (3 * ((file.length - 4 * 1024 * 1024) / 4)) ++
            segmentAt file (file.length - 4 * 1024 * 1024)) % 2 ^ 128))) ∧
    (∀ v : Nat, (formatHex32 v).length = 32 ∧
      ∀ c ∈ (formatHex32 v).data, c ∈ lowerHexAlphabet) := by
  refine ⟨?_, ?_, fun v => ⟨formatHex32_length v, formatHex32_lowerHex v⟩⟩
  · intro hlt
    simp [calculate_fast_hash, HASH_THRESHOLD, hlt, hash_entire_file]
  · intro hge
    have hseg : SEGMENT_SIZE = 4 * 1024 * 1024 := rfl
    set n := file.length with hn
    set gap := (n - 4 * 1024 * 1024) / 4 with hgap
    have hgap4 : 4 * gap ≤ n - 4 * 1024 * 1024 := by
      have := Nat.div_mul_le_self (n - 4 * 1024 * 1024) 4
      omega
    have h0 : (0 : Nat) + SEGMENT_SIZE ≤ n := by rw [hseg]; omega
    have h1 : 1 * gap + SEGMENT_SIZE ≤ n := by rw [hseg]; omega
    have h2 : 2 * gap + SEGMENT_SIZE ≤ n := by rw [hseg]; omega
    have h3 : 3 * gap + SEGMENT_SIZE ≤ n := by rw [hseg]; omega
    have h4 : (n - SEGMENT_SIZE) + SEGMENT_SIZE ≤ n := by rw [hseg]; omega
    have hnlt : ¬ n < HASH_THRESHOLD := by
      simp only [HASH_THRESHOLD]; omega
    have e0 := read_exact_of_le file 0 SEGMENT_SIZE h0
    have e1 := read_exact_of_le file (1 * gap) SEGMENT_SIZE h1
    have e2 := read_exact_of_le file (2 * gap) SEGMENT_SIZE h2
    have e3 := read_exact_of_le file (3 * gap) SEGMENT_SIZE h3
    have e4 := read_exact_of_le file (n - SEGMENT_SIZE) SEGMENT_SIZE h4
    rw [one_mul] at e1
    have hsegnum : (SEGMENT_SIZE : Nat) = 4194304 := rfl
    rw [hsegnum] at e0 e1 e2 e3 e4
    simp only [calculate_fast_hash, hnlt, if_false, hash_file_segments,
      read_segments_loop, one_mul, hsegnum, e0, e1, e2, e3, e4]
    simp [segmentAt, SEGMENT_SIZE, List.append_assoc, List.drop_zero]

/-- Witness for C1 at a concrete small file (whole-file branch). -/
theorem calculate_fast_hash_spec_witness :
    (3 < 40 * 1024 * 1024) ∧
    calculate_fast_hash (fun l => l.length) [7, 7, 7] =
      some (formatHex32 ((fun l : List Nat => l.length) [7, 7, 7] % 2 ^ 128)) :=
  ⟨by norm_num, (calculate_fast_hash_spec (fun l => l.length) [7, 7, 7]).1 (by norm_num)⟩

/-- C3: the spec requires the date stage to reject `2024-13-40` (invalid
month and day) and classification to fall through to the Movie and Generic
stages without panicking; the code instead reaches the
`expect("Invalid date")` panic inside `days_since_epoch`, modelled here as
`classify_path` evaluating to `none`. -/
theorem classify_path_invalid_date_panics :
    days_since_epoch 2024 13 40 = none ∧
    classify_path "TV/News Show/2024-13-40.mkv" = none := by
  constructor
  · decide
  · decide

/-- C2 counterexample: after the initial scan the part's owning item is the
episode, whose `source_path` is null (the show holds `/a/Show`); the claimed
rewrite of the owning item's `source_path` from `/a/Show` to `/b/Show` does
not happen — re-scanning the moved file leaves the show at `/a/Show` and
instead sets the episode's `source_path` to `/b/Show`. -/
theorem episode_move_counterexample :
    rename_scenario_store.items.map (fun i => (i.itemType, i.source_path)) =
      [("show", some "/a/Show"), ("season", none), ("episode", none)] ∧
    scanOutcome rename_rescan_result = some (rename_rescan_store, none, emptyTemps) ∧
    rename_rescan_store.items.map (fun i => (i.itemType, i.source_path)) =
      [("show", some "/a/Show"), ("season", none), ("episode", some "/b/Show")] ∧
    rename_rescan_store.items.filter
        (fun i => i.itemType = "show" ∧ i.source_path = some "/b/Show") = [] := by
  refine ⟨by decide, by decide, by decide, by decide⟩

/-- C2 amended: the probe finds the part by (size, fast_hash); its owning
item is the episode, whose `source_path` is null, so the scanner sets the
episode item's `source_path` to `/b/Show` directly (the item-migration
branch never runs, and the show item keeps `source_path` `/a/Show`), then
updates the part's path and mtime. -/
theorem episode_move_amended :
    scanOutcome rename_rescan_result = some (rename_rescan_store, none, emptyTemps) ∧
    rename_rescan_store.items.map (fun i => (i.itemType, i.title, i.source_path)) =
      [("show", "Show", some "/a/Show"), ("season", "Season 1", none),
       ("episode", "Episode 1", some "/b/Show")] ∧
    rename_rescan_store.parts.map (fun p => (p.path, p.mtime, p.updated_at)) =
      [("/b/Show/Season 1/E01.mkv", some 5, 20)] ∧
    rename_rescan_store.versions = rename_scenario_store.versions := by
  refine ⟨by decide, by decide, by decide, by decide⟩

/-- C4 counterexample: the two-part movie scan produces one item but two
versions (not one) and hard-codes `part_index` 0 on both parts (not 1, 2). -/
theorem multipart_movie_counterexample :
    multipart_store.items.length = 1 ∧
    multipart_store.versions.length = 2 ∧
    multipart_store.versions.length ≠ 1 ∧
    multipart_store.parts.map (fun p => p.part_index) = [0, 0] ∧
    multipart_store.parts.map (fun p => p.part_index) ≠ [1, 2] := by
  decide

/-- C4 amended: the two part files under the matching movie folder produce
exactly one movie item; each file gets its own fresh version, whose edition
is the dash label `part1` / `part2`, owning one part each; both parts have
`part_index` 0 (the classifier's parsed part numbers are discarded by
`process_temp_movie`). -/
theorem multipart_movie_amended :
    multipart_store.items.map (fun i => (i.itemType, i.title, i.source_path)) =
      [("movie", "Avatar", some "/Movies/Avatar (2009)")] ∧
    multipart_store.versions.map (fun v => (v.item_id, v.edition)) =
      [(1, some "part1"), (1, some "part2")] ∧
    multipart_store.parts.map (fun p => (p.version_id, p.part_index, p.path)) =
      [(1, 0, "/Movies/Avatar (2009)/Avatar (2009) - part1.mkv"),
       (2, 0, "/Movies/Avatar (2009)/Avatar (2009) - part2.mkv")] := by
  decide

/-- C5 counterexample: for
`Example.S01E03 - Pilot - Directors Cut.mkv` the dash capture is consulted
once, so the first dash label `Pilot` becomes the version and the episode
title stays unset — not title `Pilot` with edition `Directors Cut`. -/
theorem tv_dash_label_counterexample :
    ((classify_path
        "/media/TV/Example/Season 1/Example.S01E03 - Pilot - Directors Cut.mkv").bind
      (fun r => r.tv_episode)).map (fun e => (e.title, e.version)) =
        some (none, some "Pilot") ∧
    ((classify_path
        "/media/TV/Example/Season 1/Example.S01E03 - Pilot - Directors Cut.mkv").bind
      (fun r => r.tv_episode)).map (fun e => (e.title, e.version)) ≠
        some (some "Pilot", some "Directors Cut") := by
  constructor
  · decide
  · decide

/-- C5 amended: a dash-delimited label becomes the episode title exactly
when a version is already set when the (single) dash capture is examined,
which happens when an `edition-` brace capture precedes it; with no brace
capture and no prior version, the first dash label becomes the version and
the title is untouched — so the Pilot input yields version `Pilot` and no
title. -/
theorem tv_suffix_dash_label_spec (suffix : List Char) (tv : TvEpisodeInfo) :
    (∀ c d, scanTails version_braces_at suffix = some c →
        scanTails version_dash_at suffix = some d →
        (parse_version_title_and_part_from_suffix_tv suffix tv).version =
          some (⟨c⟩ : String) ∧
        (parse_version_title_and_part_from_suffix_tv suffix tv).title =
          some (⟨d⟩ : String)) ∧
    (∀ d, scanTails version_braces_at suffix = none →
        scanTails version_dash_at suffix = some d → tv.version = none →
        (parse_version_title_and_part_from_suffix_tv suffix tv).version =
          some (⟨d⟩ : String) ∧
        (parse_version_title_and_part_from_suffix_tv suffix tv).title = tv.title) ∧
    ((classify_path
        "/media/TV/Example/Season 1/Example.S01E03 - Pilot - Directors Cut.mkv").bind
      (fun r => r.tv_episode)).map (fun e => (e.title, e.version)) =
        some (none, some "Pilot") := by
  refine ⟨?_, ?_, by decide⟩
  · intro c d hb hd
    simp only [parse_version_title_and_part_from_suffix_tv, hb, hd]
    cases hp : scanTails part_pattern_at suffix <;> simp
  · intro d hb hd hv
    simp only [parse_version_title_and_part_from_suffix_tv, hb, hd, hv]
    cases hp : scanTails part_pattern_at suffix <;> simp

/-- Witness for C5's amended rule at a concrete suffix where a brace edition
precedes a dash label. -/
theorem tv_suffix_dash_label_spec_witness :
    (parse_version_title_and_part_from_suffix_tv
        " \x7bedition-Extended\x7d - Pilot".data sampleTv).version =
      some "Extended" ∧
    (parse_version_title_and_part_from_suffix_tv
        " \x7bedition-Extended\x7d - Pilot".data sampleTv).title =
      some "Extended\x7d" :=
  (tv_suffix_dash_label_spec " \x7bedition-Extended\x7d - Pilot".data sampleTv).1
    "Extended".data "Extended\x7d".data (by decide) (by decide)

/-- C6 counterexample: for a specials episode the derived `source_path`
includes the `Specials` folder — `find_season_folder` recognizes only
`Season <n>` parents, not `special`/`specials`. -/
theorem specials_source_path_counterexample :
    ((classify_path "/media/TV/Some Show/Specials/E01.mkv").bind
      (fun r => r.tv_episode)).map (fun e => e.source_path) =
        some "/media/TV/Some Show/Specials" ∧
    ((classify_path "/media/TV/Some Show/Specials/E01.mkv").bind
      (fun r => r.tv_episode)).map (fun e => e.source_path) ≠
        some "/media/TV/Some Show" := by
  constructor
  · decide
  · decide

theorem joinSlash_head_ne_slash (folders : List (List Char))
    (hf : ∀ f ∈ folders, f ≠ [] ∧ f.head? ≠ some '/') :
    (joinSlash folders).head? ≠ some '/' := by
  match folders with
  | [] => simp [joinSlash]
  | [x] =>
    simpa [joinSlash] using (hf x (by simp)).2
  | x :: y :: rest =>
    obtain ⟨hne, hh⟩ := hf x (by simp)
    cases x with
    | nil => exact absurd rfl hne
    | cons a t => simpa [joinSlash] using hh

theorem find_season_folder_concat (front : List (List Char)) (lastF : List Char) :
    find_season_folder (front ++ [lastF]) =
      (if season_folder_matches lastF then some front.length else none) := by
  simp [find_season_folder, List.getLast?_concat]

/-- C6 amended: the season/specials parent is excluded from `source_path`
only when the immediate parent matches `Season <n>` and is not the sole
path component; a `special`/`specials` parent (or any non-season parent) is
kept, as is a season folder that is the first component; the leading `/` is
kept iff the input path had one (for folder components without a leading
slash). -/
theorem find_source_path_characterization (folders : List (List Char)) (orig : List Char) :
    (∀ front lastF, folders = front ++ [lastF] →
        season_folder_matches lastF = true → front ≠ [] →
        find_source_path folders orig = absPrefix orig (joinSlash front)) ∧
    ((∀ lastF, folders.getLast? = some lastF → season_folder_matches lastF = false) →
        find_source_path folders orig = absPrefix orig (joinSlash folders)) ∧
    (∀ lastF, folders = [lastF] → season_folder_matches lastF = true →
        find_source_path folders orig = absPrefix orig (joinSlash folders)) ∧
    ((∀ f ∈ folders, f ≠ [] ∧ f.head? ≠ some '/') →
        (((find_source_path folders orig).head? = some '/') ↔ orig.head? = some '/')) := by
  refine ⟨?_, ?_, ?_, ?_⟩
  · intro front lastF hsplit hseason hfront
    subst hsplit
    have hpos : 0 < front.length := List.length_pos.mpr hfront
    simp [find_source_path, find_season_folder_concat, hseason, hpos, List.take_left]
  · intro hnone
    unfold find_source_path
    cases hq : find_season_folder folders with
    | none => rfl
    | some idx =>
      exfalso
      unfold find_season_folder at hq
      cases hl : folders.getLast? with
      | none => simp [hl] at hq
      | some lastF =>
        rw [hl] at hq
        have := hnone lastF hl
        simp [this] at hq
  · intro lastF hsplit hseason
    subst hsplit
    have : find_season_folder [lastF] = some 0 := by
      simp [find_season_folder, hseason]
    simp [find_source_path, this]
  · intro hf
    have key : ∀ X : List (List Char), (∀ f ∈ X, f ≠ [] ∧ f.head? ≠ some '/') →
        (((absPrefix orig (joinSlash X)).head? = some '/') ↔ orig.head? = some '/') := by
      intro X hX
      unfold absPrefix
      by_cases ho : orig.head? = some '/'
      · simp [ho]
      · simp [ho, joinSlash_head_ne_slash X hX]
    unfold find_source_path
    cases hq : find_season_folder folders with
    | none => exact key folders hf
    | some idx =>
      by_cases hpos : 0 < idx
      · simp only [hpos, if_true]
        exact key _ (fun f hfm => hf f (List.mem_of_mem_take hfm))
      · simp only [hpos, if_false]
        exact key folders hf

/-- Witness for C6's amended characterization of `find_source_path` at a
season-folder parent. -/
theorem find_source_path_characterization_witness :
    find_source_path ["media".data, "TV".data, "Some Show".data, "Season 2".data]
        "/media/TV/Some Show/Season 2/E05.mkv".data =
      "/media/TV/Some Show".data :=
  ((find_source_path_characterization
      ["media".data, "TV".data, "Some Show".data, "Season 2".data]
      "/media/TV/Some Show/Season 2/E05.mkv".data).1
    ["media".data, "TV".data, "Some Show".data] "Season 2".data
    (by decide) (by decide) (by decide)).trans (by decide)

theorem toLower_eq_iff (c : Char) (target : Char) (htn : target.toNat < 65) :
    (Char.toLower c = target) ↔ (c = target) := by
  by_cases h : c.toNat ≥ 65 ∧ c.toNat ≤ 90
  · have hred : Char.toLower c = Char.ofNat (c.toNat + 32) := by
      simp only [Char.toLower]
      exact if_pos h
    rw [hred]
    have hv : (c.toNat + 32).isValidChar := Or.inl (by omega)
    have hofn : (Char.ofNat (c.toNat + 32)).toNat = c.toNat + 32 := by
      simp [Char.ofNat, hv]
      rfl
    constructor
    · intro he
      exfalso
      rw [he] at hofn
      omega
    · intro he
      exfalso
      subst he
      omega
  · have hred : Char.toLower c = c := by
      simp only [Char.toLower]
      exact if_neg h
    rw [hred]

theorem normalizeName_eq_spec (s : String) : normalizeName s = normalizeNameSpec s := by
  unfold normalizeName normalizeNameSpec lowerChars
  induction s.data with
  | nil => rfl
  | cons c t ih =>
    by_cases hc : (c ≠ ' ' ∧ c ≠ '.')
    · have hcl : (Char.toLower c ≠ ' ' ∧ Char.toLower c ≠ '.') := by
        constructor
        · exact fun he => hc.1 ((toLower_eq_iff c ' ' (by decide)).mp he)
        · exact fun he => hc.2 ((toLower_eq_iff c '.' (by decide)).mp he)
      simp only [List.filter_cons, List.map_cons]
      rw [if_pos (by simpa using hc), if_pos (by simpa using hcl)]
      simp only [List.map_cons]
      rw [ih]
    · have hcl : ¬ (Char.toLower c ≠ ' ' ∧ Char.toLower c ≠ '.') := by
        intro hcon
        apply hc
        constructor
        · exact fun he => hcon.1 ((toLower_eq_iff c ' ' (by decide)).mpr he)
        · exact fun he => hcon.2 ((toLower_eq_iff c '.' (by decide)).mpr he)
      simp only [List.filter_cons, List.map_cons]
      rw [if_neg (by simpa using hc), if_neg (by simpa using hcl)]
      exact ih

theorem is_movie_in_matching_folder_eq_spec (t : String) (y : Option Int) (f : String) :
    is_movie_in_matching_folder t y f = movie_folder_matches_spec t y f := by
  unfold is_movie_in_matching_folder movie_folder_matches_spec
  rw [normalizeName_eq_spec t, normalizeName_eq_spec f]
  cases hcb : containsSub (normalizeNameSpec t) (normalizeNameSpec f) with
  | false =>
    rw [if_pos (by simp [hcb])]
    cases y <;> simp [hcb]
  | true =>
    rw [if_neg (by simp [hcb])]
    cases y <;> simp [hcb]

/-- C7: a movie file gets the parent folder as its `source_path` exactly
when the normalized parent folder name (lowercase, spaces and dots removed)
contains the normalized title and, when a year was parsed, the year's
digits as a substring; otherwise the movie has no `source_path`. -/
theorem movie_source_path_assignment (file_path : String)
    (classified : ClassificationResult) (movie : MovieInfo) (folder : String)
    (hm : classified.media_type = MediaType.Movie)
    (hmi : classified.movie = some movie)
    (hf : parentDirName file_path = some folder) :
    (∃ b, parentPathStr file_path = some b) ∧
    (movie_folder_matches_spec movie.title movie.year folder = true →
      scan_source_path_for file_path classified = parentPathStr file_path) ∧
    (movie_folder_matches_spec movie.title movie.year folder = false →
      scan_source_path_for file_path classified = none) := by
  have hb : ∃ b, parentPathStr file_path = some b := by
    unfold parentDirName at hf
    cases hp : parentPathStr file_path with
    | none => rw [hp] at hf; exact absurd hf (by simp)
    | some b => exact ⟨b, rfl⟩
  refine ⟨hb, ?_, ?_⟩
  · intro hmatch
    have hcode : is_movie_in_matching_folder movie.title movie.year folder = true :=
      (is_movie_in_matching_folder_eq_spec movie.title movie.year folder).trans hmatch
    simp [scan_source_path_for, hm, hmi, hf, hcode]
  · intro hnm
    have hcode : is_movie_in_matching_folder movie.title movie.year folder = false :=
      (is_movie_in_matching_folder_eq_spec movie.title movie.year folder).trans hnm
    simp [scan_source_path_for, hm, hmi, hf, hcode]

/-- Witness for C7 at the matching folder `Avatar (2009)`. -/
theorem movie_source_path_assignment_witness :
    scan_source_path_for "/Movies/Avatar (2009)/Avatar (2009).mkv"
        { media_type := MediaType.Movie, extra := none, tv_episode := none,
          movie := some { title := "Avatar", source_path := "/Movies/Avatar (2009)",
                          year := some 2009, part := none, version := none,
                          external_ids := [] },
          generic := none } =
      some "/Movies/Avatar (2009)" :=
  ((movie_source_path_assignment "/Movies/Avatar (2009)/Avatar (2009).mkv"
      { media_type := MediaType.Movie, extra := none, tv_episode := none,
        movie := some { title := "Avatar", source_path := "/Movies/Avatar (2009)",
                        year := some 2009, part := none, version := none,
                        external_ids := [] },
        generic := none }
      { title := "Avatar", source_path := "/Movies/Avatar (2009)", year := some 2009,
        part := none, version := none, external_ids := [] }
      "Avatar (2009)" rfl rfl (by decide)).2.1 (by decide)).trans (by decide)

/-- C8 counterexample: an index recovered in the `scanning` state whose scan
errors is NOT marked `failed` — the error propagates out of
`process_scanning_cycle` and the index's status is left at `scanning`. -/
theorem recovery_error_keeps_scanning_counterexample :
    process_scanning_cycle (fun st _ => (st, some "db error"))
        [{ id := 1, indexType := "videos", scan_status := "scanning",
           last_scanned_at := 0 }] =
      ([{ id := 1, indexType := "videos", scan_status := "scanning",
          last_scanned_at := 0 }], Except.error "db error") ∧
    get_indexes_by_scan_status
        [{ id := 1, indexType := "videos", scan_status := "scanning",
           last_scanned_at := 0 }] "failed" = [] := by
  refine ⟨by decide, by decide⟩

/-- C8 amended: when the scan of the queued-picked index errors, its status
is set to `failed`; when the scan of a recovered `scanning` index errors,
the error propagates out of the cycle and no status write happens — the
index stays `scanning`. -/
theorem scan_error_status_spec
    (scanIdx : List IndexRec → IndexRec → List IndexRec × Option String)
    (l : List IndexRec) (i : IndexRec) (e : String) :
    (get_indexes_by_scan_status l "scanning" = [] →
      get_indexes_by_scan_status l "queued" = [i] →
      i.indexType = "videos" →
      scanIdx (update_scan_status l i.id "scanning") i =
        (update_scan_status l i.id "scanning", some e) →
      process_scanning_cycle scanIdx l =
        (update_scan_status (update_scan_status l i.id "scanning") i.id "failed",
         Except.ok false)) ∧
    (get_indexes_by_scan_status l "scanning" = [i] →
      i.indexType = "videos" →
      scanIdx l i = (l, some e) →
      process_scanning_cycle scanIdx l = (l, Except.error e)) := by
  constructor
  · intro hs hq hv hscan
    unfold process_scanning_cycle
    rw [hs, hq]
    simp only [List.isEmpty_nil, if_true, List.foldl_nil]
    simp [hv, hscan]
  · intro hs hv hscan
    unfold process_scanning_cycle
    rw [hs]
    simp only [List.isEmpty_cons, Bool.false_eq_true, if_false]
    unfold recovery_loop
    simp [hv, hscan]

/-- Witness for C8's amended queued-path clause. -/
theorem scan_error_status_spec_witness :
    process_scanning_cycle (fun st _ => (st, some "boom"))
        [{ id := 2, indexType := "videos", scan_status := "queued",
           last_scanned_at := 5 }] =
      (update_scan_status (update_scan_status
          [{ id := 2, indexType := "videos", scan_status := "queued",
             last_scanned_at := 5 }] 2 "scanning") 2 "failed",
       Except.ok false) :=
  (scan_error_status_spec (fun st _ => (st, some "boom"))
      [{ id := 2, indexType := "videos", scan_status := "queued",
         last_scanned_at := 5 }]
      { id := 2, indexType := "videos", scan_status := "queued",
        last_scanned_at := 5 } "boom").1
    (by decide) (by decide) (by decide) (by decide)

/-- C9: when the (size, fast_hash) probe returns a part whose stored path
equals the scanned file's path, the scan step returns the store with only
that part's `updated_at` bumped: items and versions are untouched, every
other part row is unchanged, and the hit row changes in no field but
`updated_at`. -/
theorem probe_hit_same_path_frame (fs : String → Bool) (st : Store) (index_id : Nat)
    (file_path : String) (file_size mtime : Int) (fast_hash : String)
    (tracker : Option String) (temps : TempBufs) (now : Int) (p0 : VideoPart)
    (hhead : (get_video_parts_by_size_and_hash st file_size fast_hash).head? = some p0)
    (hpath : p0.path = file_path) :
    process_video_file fs st index_id file_path file_size mtime fast_hash tracker temps now =
      Except.ok (update_video_part_updated_at st p0.id now, tracker, temps) ∧
    (update_video_part_updated_at st p0.id now).items = st.items ∧
    (update_video_part_updated_at st p0.id now).versions = st.versions ∧
    (update_video_part_updated_at st p0.id now).parts.length = st.parts.length ∧
    (∀ (n : Nat) (q : VideoPart), st.parts[n]? = some q →
      ∃ q2, (update_video_part_updated_at st p0.id now).parts[n]? = some q2 ∧
        q2.id = q.id ∧ q2.version_id = q.version_id ∧ q2.path = q.path ∧
        q2.size = q.size ∧ q2.mtime = q.mtime ∧ q2.part_index = q.part_index ∧
        q2.fast_hash = q.fast_hash ∧
        (q.id ≠ p0.id → q2 = q) ∧ (q.id = p0.id → q2.updated_at = now)) := by
  refine ⟨?_, rfl, rfl, by simp [update_video_part_updated_at], ?_⟩
  · unfold process_video_file
    simp [hhead, hpath]
  · intro n q hq
    refine ⟨if q.id = p0.id then { q with updated_at := now } else q, ?_, ?_⟩
    · simp [update_video_part_updated_at, List.getElem?_map, hq]
    · by_cases hid : q.id = p0.id <;> simp [hid]

/-- Witness for C9 at a one-part store. -/
theorem probe_hit_same_path_frame_witness :
    process_video_file (fun _ => true)
        { items := [], versions := [],
          parts := [{ id := 4, version_id := 9, path := "/v/x.mkv", size := some 7,
                      mtime := some 1, part_index := 0, fast_hash := some "h",
                      updated_at := 2 }],
          items_next_id := 1, versions_next_id := 1, parts_next_id := 5 }
        1 "/v/x.mkv" 7 3 "h" none emptyTemps 42 =
      Except.ok (update_video_part_updated_at
        { items := [], versions := [],
          parts := [{ id := 4, version_id := 9, path := "/v/x.mkv", size := some 7,
                      mtime := some 1, part_index := 0, fast_hash := some "h",
                      updated_at := 2 }],
          items_next_id := 1, versions_next_id := 1, parts_next_id := 5 }
        4 42, none, emptyTemps) :=
  (probe_hit_same_path_frame (fun _ => true)
      { items := [], versions := [],
        parts := [{ id := 4, version_id := 9, path := "/v/x.mkv", size := some 7,
                    mtime := some 1, part_index := 0, fast_hash := some "h",
                    updated_at := 2 }],
        items_next_id := 1, versions_next_id := 1, parts_next_id := 5 }
      1 "/v/x.mkv" 7 3 "h" none emptyTemps 42
      { id := 4, version_id := 9, path := "/v/x.mkv", size := some 7,
        mtime := some 1, part_index := 0, fast_hash := some "h", updated_at := 2 }
      (by decide) (by decide)).1

/-- C10: a movie file with no derived `source_path`, scanned while no
source_path is active in the tracker, is committed immediately; the item's
title is the full filename stem (year token included), the classifier's
parsed title/year/edition/part are all discarded (edition null, part_index
0), and when an item with exactly that title already exists in the index,
its id is reused instead of inserting a new item. -/
theorem bare_movie_immediate_commit (fs : String → Bool) (st : Store) (index_id : Nat)
    (file_path : String) (file_size mtime : Int) (fast_hash : String)
    (temps : TempBufs) (now : Int) (classified : ClassificationResult)
    (hprobe : get_video_parts_by_size_and_hash st file_size fast_hash = [])
    (hcls : classify_path file_path = some classified)
    (hm : classified.media_type = MediaType.Movie)
    (hnosp : scan_source_path_for file_path classified = none) :
    process_video_file fs st index_id file_path file_size mtime fast_hash none temps now =
      Except.ok (add_movie_immediately st index_id file_path file_size mtime fast_hash now,
        none, temps) ∧
    (∀ it0, (get_video_items_by_title st index_id (fileStemOf file_path)).head? = some it0 →
      (add_movie_immediately st index_id file_path file_size mtime fast_hash now).items =
        st.items ∧
      (add_movie_immediately st index_id file_path file_size mtime fast_hash now).versions =
        st.versions ++ [{ id := st.versions_next_id, item_id := it0.id, edition := none }]) ∧
    ((get_video_items_by_title st index_id (fileStemOf file_path)).head? = none →
      (add_movie_immediately st index_id file_path file_size mtime fast_hash now).items =
        st.items ++
          [{ id := st.items_next_id, index_id := index_id, itemType := "movie",
             parent_id := none, title := fileStemOf file_path, source_path := none,
             number := none, metadata := [] }] ∧
      (add_movie_immediately st index_id file_path file_size mtime fast_hash now).versions =
        st.versions ++
          [{ id := st.versions_next_id, item_id := st.items_next_id,
             edition := none }]) ∧
    (add_movie_immediately st index_id file_path file_size mtime fast_hash now).parts =
      st.parts ++
        [{ id := st.parts_next_id, version_id := st.versions_next_id,
           path := file_path, size := some file_size, mtime := some mtime,
           part_index := 0, fast_hash := some fast_hash, updated_at := now }] := by
  have hne : classified.media_type ≠ MediaType.Extra := by rw [hm]; decide
  refine ⟨?_, ?_, ?_, ?_⟩
  · unfold process_video_file
    rw [hprobe]
    simp only [List.head?_nil]
    rw [hcls]
    simp [hne, hnosp, hm]
  · intro it0 hit
    unfold add_movie_immediately
    simp only [hit]
    simp [add_video_version_with_params, add_video_part_with_params]
  · intro hnone
    unfold add_movie_immediately
    simp only [hnone]
    simp [add_video_item, add_video_version_with_params, add_video_part_with_params]
  · unfold add_movie_immediately
    cases hcase : (get_video_items_by_title st index_id (fileStemOf file_path)).head? with
    | none =>
      simp [hcase, add_video_item, add_video_version_with_params,
        add_video_part_with_params]
    | some it0 =>
      simp [hcase, add_video_version_with_params, add_video_part_with_params]

/-- Witness for C10 at `/Videos/Avatar (2009).mkv` with an existing item
titled `Avatar (2009)`. -/
theorem bare_movie_immediate_commit_witness :
    process_video_file (fun _ => true)
        { items := [{ id := 5, index_id := 1, itemType := "movie", parent_id := none,
                      title := "Avatar (2009)", source_path := none, number := none,
                      metadata := [] }],
          versions := [], parts := [],
          items_next_id := 6, versions_next_id := 1, parts_next_id := 1 }
        1 "/Videos/Avatar (2009).mkv" 300 7 "h3" none emptyTemps 10 =
      Except.ok (add_movie_immediately
        { items := [{ id := 5, index_id := 1, itemType := "movie", parent_id := none,
                      title := "Avatar (2009)", source_path := none, number := none,
                      metadata := [] }],
          versions := [], parts := [],
          items_next_id := 6, versions_next_id := 1, parts_next_id := 1 }
        1 "/Videos/Avatar (2009).mkv" 300 7 "h3" 10, none, emptyTemps) :=
  (bare_movie_immediate_commit (fun _ => true)
      { items := [{ id := 5, index_id := 1, itemType := "movie", parent_id := none,
                    title := "Avatar (2009)", source_path := none, number := none,
                    metadata := [] }],
        versions := [], parts := [],
        items_next_id := 6, versions_next_id := 1, parts_next_id := 1 }
      1 "/Videos/Avatar (2009).mkv" 300 7 "h3" emptyTemps 10
      { media_type := MediaType.Movie, extra := none, tv_episode := none,
        movie := some { title := "Avatar", source_path := "/Videos", year := some 2009,
                        part := none, version := none, external_ids := [] },
        generic := none }
      (by decide) (by decide) (by decide) (by decide)).1

end IndexMediaServer
